import Mathlib

/-!
Verification of the httpstatus-rust utility (src/main.rs).

The program holds a fixed mapping from HTTP status codes to reason phrases
in a `BTreeMap<u16, &'static str>` and renders it either as a bordered
table or as JSON.  We shallowly embed the map as a sorted association list
`List (Nat × String)` (the iteration order of a `BTreeMap` is strictly
ascending key order), mirror the sequence of `map.insert` calls of
`get_status_codes`, embed the JSON serialization of the map (the
documented compact serde_json output for a string-keyed object), a JSON object
parser for round-trip checking, and models of `print_json`, `print_table`
and the flag dispatch in `main`.
-/

namespace HttpStatus

/-- Insertion into the sorted association list modelling
`BTreeMap<u16, &str>::insert`: keeps keys strictly ascending, replaces the
value on an existing key. -/
def btInsert (k : Nat) (v : String) : List (Nat × String) → List (Nat × String)
  | [] => [(k, v)]
  | (k', v') :: rest =>
    if k < k' then (k, v) :: (k', v') :: rest
    else if k = k' then (k, v) :: rest
    else (k', v') :: btInsert k v rest

/-- Lookup modelling `BTreeMap::get`: `some` reason when the key is
present, `none` otherwise. -/
def btGet (k : Nat) : List (Nat × String) → Option String
  | [] => none
  | (k', v') :: rest => if k = k' then some v' else btGet k rest

/-- The key sequence of the map in iteration order. -/
def btKeys (m : List (Nat × String)) : List Nat :=
  m.map Prod.fst

/-- The (code, reason) pairs in the exact order of the `map.insert` calls
in `get_status_codes` (src/main.rs lines 8-85). -/
def statusInserts : List (Nat × String) :=
  [ (100, "Continue"),
    (101, "Switching Protocols"),
    (102, "Processing"),
    (103, "Early Hints"),
    (200, "OK"),
    (201, "Created"),
    (202, "Accepted"),
    (203, "Non-Authoritative Information"),
    (204, "No Content"),
    (205, "Reset Content"),
    (206, "Partial Content"),
    (207, "Multi-Status"),
    (208, "Already Reported"),
    (226, "IM Used"),
    (300, "Multiple Choices"),
    (301, "Moved Permanently"),
    (302, "Found"),
    (303, "See Other"),
    (304, "Not Modified"),
    (305, "Use Proxy"),
    (306, "Switch Proxy"),
    (307, "Temporary Redirect"),
    (308, "Permanent Redirect"),
    (400, "Bad Request"),
    (401, "Unauthorized"),
    (402, "Payment Required"),
    (403, "Forbidden"),
    (404, "Not Found"),
    (405, "Method Not Allowed"),
    (406, "Not Acceptable"),
    (407, "Proxy Authentication Required"),
    (408, "Request Timeout"),
    (409, "Conflict"),
    (410, "Gone"),
    (411, "Length Required"),
    (412, "Precondition Failed"),
    (413, "Payload Too Large"),
    (414, "URI Too Long"),
    (415, "Unsupported Media Type"),
    (416, "Range Not Satisfiable"),
    (417, "Expectation Failed"),
    (418, "I\x27m a teapot"),
    (421, "Misdirected Request"),
    (422, "Unprocessable Entity"),
    (423, "Locked"),
    (424, "Failed Dependency"),
    (425, "Too Early"),
    (426, "Upgrade Required"),
    (428, "Precondition Required"),
    (429, "Too Many Requests"),
    (431, "Request Header Fields Too Large"),
    (451, "Unavailable For Legal Reasons"),
    (500, "Internal Server Error"),
    (501, "Not Implemented"),
    (502, "Bad Gateway"),
    (503, "Service Unavailable"),
    (504, "Gateway Timeout"),
    (505, "HTTP Version Not Supported"),
    (506, "Variant Also Negotiates"),
    (507, "Insufficient Storage"),
    (508, "Loop Detected"),
    (510, "Not Extended"),
    (511, "Network Authentication Required") ]

/-- Embedding of `get_status_codes` (src/main.rs lines 8-85): start from
the empty map and perform the `insert` calls in source order. -/
def get_status_codes : List (Nat × String) :=
  statusInserts.foldl (fun m kv => btInsert kv.1 kv.2 m) []

/-- The status codes enumerated in the spec's data contract (§6), reading
the "or 306 depending on revision" alternative as including 306, which is
the revision the code chose. -/
def specCodes : List Nat :=
  [ 100, 101, 102, 103,
    200, 201, 202, 203, 204, 205, 206, 207, 208, 226,
    300, 301, 302, 303, 304, 305, 306, 307, 308,
    400, 401, 402, 403, 404, 405, 406, 407, 408, 409, 410,
    411, 412, 413, 414, 415, 416, 417, 418, 421, 422, 423,
    424, 425, 426, 428, 429, 431, 451,
    500, 501, 502, 503, 504, 505, 506, 507, 508, 510, 511 ]

/-- Number of codes of the map that fall in `[lo, hi)`, as the range
filters in `test_status_code_ranges` count them. -/
def classCount (lo hi : Nat) (m : List (Nat × String)) : Nat :=
  ((btKeys m).filter (fun c => lo ≤ c && c < hi)).length

/-- The entry count the unit test `test_status_codes_count` asserts
(src/main.rs line 149). -/
def testAssertedCount : Nat := 63

/-- JSON escaping of one character, as serde_json escapes string
contents: quote and backslash get a backslash escape, the common control
characters get their short escapes, any other control character gets a
`\u00XX` escape, everything else is emitted verbatim. -/
def escapeChar (c : Char) : List Char :=
  if c = '"' then ['\\', '"']
  else if c = '\\' then ['\\', '\\']
  else if c = '\n' then ['\\', 'n']
  else if c = '\t' then ['\\', 't']
  else if c = '\r' then ['\\', 'r']
  else if c.toNat < 32 then
    ['\\', 'u', '0', '0', (Nat.toDigits 16 c.toNat).headD '0',
      ((Nat.toDigits 16 c.toNat).drop 1).headD '0']
  else [c]

/-- A JSON string literal: the escaped contents between double quotes. -/
def quoteJson (s : String) : String :=
  ⟨'"' :: (s.data.flatMap escapeChar) ++ ['"']⟩

/-- Embedding of `serde_json::to_string` applied to the
`BTreeMap<u16, &str>`: a compact JSON object whose members are the
entries of the map in iteration order, each key the decimal string of
the code. -/
def serializeMap (m : List (Nat × String)) : String :=
  "\x7b" ++ String.intercalate ","
    (m.map (fun kv => quoteJson (toString kv.1) ++ ":" ++ quoteJson kv.2))
  ++ "\x7d"

/-- Parse the contents of a JSON string literal after its opening quote:
returns the unescaped characters and the remainder after the closing
quote. -/
def parseStringAux : List Char → Option (List Char × List Char)
  | [] => none
  | '"' :: rest => some ([], rest)
  | '\\' :: e :: rest =>
    (match e with
      | '"' => some '"'
      | '\\' => some '\\'
      | '/' => some '/'
      | 'n' => some '\n'
      | 't' => some '\t'
      | 'r' => some '\r'
      | _ => none).bind fun c =>
        (parseStringAux rest).bind fun sr => some (c :: sr.1, sr.2)
  | c :: rest =>
    (parseStringAux rest).bind fun sr => some (c :: sr.1, sr.2)

/-- Parse the members of a JSON object of string keys and string values,
starting right after the opening brace (or a comma), ending right after
the closing brace.  `fuel` bounds the number of members. -/
def parseMembers : Nat → List Char → Option (List (String × String) × List Char)
  | 0, _ => none
  | fuel + 1, cs =>
    match cs with
    | '"' :: rest =>
      (parseStringAux rest).bind fun kr =>
        match kr.2 with
        | ':' :: '"' :: r2 =>
          (parseStringAux r2).bind fun vr =>
            match vr.2 with
            | ',' :: r4 =>
              (parseMembers fuel r4).bind fun mr =>
                some ((⟨kr.1⟩, ⟨vr.1⟩) :: mr.1, mr.2)
            | '\x7d' :: r4 => some ([(⟨kr.1⟩, ⟨vr.1⟩)], r4)
            | _ => none
        | _ => none
    | _ => none

/-- Parse a complete compact JSON object of string keys and string values
(the shape `print_json` serializes); `none` on anything else. -/
def parseJsonObject (s : String) : Option (List (String × String)) :=
  match s.data with
  | '\x7b' :: '\x7d' :: rest => if rest = [] then some [] else none
  | '\x7b' :: rest =>
    match parseMembers s.length rest with
    | some (ms, []) => some ms
    | _ => none
  | _ => none

/-- What an invocation of `print_json` writes where.  `stdoutLines` are
`println!` outputs, `stderrLines` are `eprintln!` outputs, `jqInput` is
what was piped into the spawned `jq` child (when one was spawned), and
`returnedNormally` records that the function ran to its end without
crashing. -/
structure IOOut where
  stdoutLines : List String
  stderrLines : List String
  jqInput : Option String
  returnedNormally : Bool
  deriving Repr, DecidableEq

/-- Embedding of `print_json` (src/main.rs lines 87-111).  The two
serde_json calls and the success of the `jq` spawn are effects outside
the program, so they enter as parameters: `ser` is the result of
`serde_json::to_string`, `prettySer` the result of
`serde_json::to_string_pretty`, `jqSpawnOk` whether `Command::new("jq")
... .spawn()` succeeded.  On a serialization error the function reports
to stderr and returns; on a successful spawn it pipes the compact JSON
into jq; on a failed spawn it prints the pretty form, falling back to the
compact form when pretty-serialization failed (`unwrap_or(json)`). -/
def print_json (ser : Except String String) (prettySer : Except String String)
    (jqSpawnOk : Bool) : IOOut :=
  match ser with
  | .error e =>
    { stdoutLines := [], stderrLines := ["Failed to serialize JSON: " ++ e],
      jqInput := none, returnedNormally := true }
  | .ok json =>
    if jqSpawnOk then
      { stdoutLines := [], stderrLines := [], jqInput := some json,
        returnedNormally := true }
    else
      { stdoutLines := [match prettySer with | .ok p => p | .error _ => json],
        stderrLines := [], jqInput := none, returnedNormally := true }

/-- The data `print_table` feeds to the comfy_table `Table`: the header
cell texts and the row cell texts (colors are cosmetic and dropped). -/
structure RsTable where
  header : List String
  rows : List (List String)
  deriving Repr, DecidableEq

/-- Embedding of `print_table` (src/main.rs lines 113-129): header cells
"Code" and "Description", then one row per map entry in iteration order
holding the decimal string of the code and the description. -/
def print_table (m : List (Nat × String)) : RsTable :=
  { header := ["Code", "Description"],
    rows := m.map (fun kv => [toString kv.1, kv.2]) }

/-- The renderer `main` selects. -/
inductive Mode where
  | table
  | json
  deriving Repr, DecidableEq

/-- Embedding of the dispatch in `main` (src/main.rs lines 131-140): `args` is
the full argument vector including the program name at index 0; JSON mode
exactly when there is a second element and it is "--json" or "-j". -/
def selectMode (args : List String) : Mode :=
  if args.length > 1 && (args.getD 1 "" == "--json" || args.getD 1 "" == "-j")
  then .json else .table

/-- Embedding of `main`: build the registry, dispatch on the flag, exit 0
(main returns `()` and neither renderer panics or exits, so the process
exit code is 0 in normal operation). -/
def mainRun (args : List String) : Mode × Nat :=
  (selectMode args, 0)

/-- A key absent from the key sequence is an unsuccessful lookup. -/
theorem btGet_eq_none_of_not_mem (m : List (Nat × String)) (k : Nat)
    (h : k ∉ btKeys m) : btGet k m = none := by
  induction m with
  | nil => rfl
  | cons hd tl ih =>
    obtain ⟨k', v'⟩ := hd
    have hne : k ≠ k' := by
      intro heq
      exact h (by simp [btKeys, heq])
    have htl : k ∉ btKeys tl := by
      intro hmem
      refine h ?_
      rw [btKeys, List.map_cons]
      exact List.mem_cons_of_mem _ hmem
    rw [btGet, if_neg hne]
    exact ih htl

/-- When the key sequence has no duplicates, a pair of the list is
exactly what lookup returns on its key. -/
theorem btGet_eq_some_of_mem (m : List (Nat × String))
    (hnd : (btKeys m).Pairwise (fun a b => a ≠ b)) (k : Nat) (v : String)
    (hm : (k, v) ∈ m) : btGet k m = some v := by
  induction m with
  | nil => cases hm
  | cons hd tl ih =>
    obtain ⟨k', v'⟩ := hd
    rw [btKeys, List.map_cons] at hnd
    have h1 := List.pairwise_cons.mp hnd
    rcases List.mem_cons.mp hm with heq | htl
    · cases heq
      rw [btGet, if_pos rfl]
    · have hk : k ≠ k' := by
        intro heq
        exact h1.1 k (List.mem_map.mpr ⟨(k, v), htl, rfl⟩) heq.symm
      rw [btGet, if_neg hk]
      exact ih h1.2 htl

end HttpStatus

namespace HttpStatus

/-- C1: the registry returned by get_status_codes contains exactly the
status codes enumerated in the data contract of the spec (reading the
306 alternative as present, the revision the code chose): for every
integer c, c is a key of the registry if and only if c is in the
enumerated list. -/
theorem C1_registry_matches_spec_codes (c : Nat) :
    c ∈ btKeys get_status_codes ↔ c ∈ specCodes := by
  rw [show btKeys get_status_codes = specCodes from by decide]

/-- C2 counterexample: the claim pairs the presence of 306 with 64
entries and its absence with 63, but the registry contains 306 and has
exactly 63 entries, so neither disjunct of the claim holds. -/
theorem C2_revision_pairing_counterexample :
    ¬ ((306 ∉ btKeys get_status_codes ∧ get_status_codes.length = 63 ∧
          classCount 300 400 get_status_codes = 8) ∨
       (306 ∈ btKeys get_status_codes ∧ get_status_codes.length = 64 ∧
          classCount 300 400 get_status_codes = 9)) := by
  decide

/-- C2 amended: 306 is present, the registry has exactly 63 entries with
class partition 1xx=4, 2xx=10, 3xx=9, 4xx=29, 5xx=11, and the count the
test asserts (63) equals the actual entry count. -/
theorem C2_revision_counts_amended :
    306 ∈ btKeys get_status_codes ∧
    get_status_codes.length = 63 ∧
    classCount 100 200 get_status_codes = 4 ∧
    classCount 200 300 get_status_codes = 10 ∧
    classCount 300 400 get_status_codes = 9 ∧
    classCount 400 500 get_status_codes = 29 ∧
    classCount 500 600 get_status_codes = 11 ∧
    get_status_codes.length = testAssertedCount := by
  decide

/-- C3: the registry satisfies the StatusRegistry invariant: keys
pairwise unique and strictly ascending in iteration order, every code in
[100, 599], and no entry has an empty reason string. -/
theorem C3_registry_invariant :
    List.Pairwise (fun a b => a < b) (btKeys get_status_codes) ∧
    (btKeys get_status_codes).Pairwise (fun a b => a ≠ b) ∧
    (∀ c ∈ btKeys get_status_codes, 100 ≤ c ∧ c ≤ 599) ∧
    (∀ kv ∈ get_status_codes, kv.2 ≠ "") := by
  decide

/-- C4: the known fixed points hold: 200 maps to "OK", 404 to
"Not Found", 418 to the teapot phrase, and 302 to "Found". -/
theorem C4_known_fixed_points :
    btGet 200 get_status_codes = some "OK" ∧
    btGet 404 get_status_codes = some "Not Found" ∧
    btGet 418 get_status_codes = some "I\x27m a teapot" ∧
    btGet 302 get_status_codes = some "Found" := by
  decide

set_option maxRecDepth 10000 in
/-- C5: JSON round-trip: serializing the registry and parsing the result
yields exactly the registry with each key replaced by the decimal string
of its code, and the serialized text begins with an opening brace and
ends with a closing brace. -/
theorem C5_json_round_trip :
    parseJsonObject (serializeMap get_status_codes) =
      some (get_status_codes.map (fun kv => (toString kv.1, kv.2))) ∧
    (serializeMap get_status_codes).data.headD ' ' = '\x7b' ∧
    (serializeMap get_status_codes).data.getLast? = some '\x7d' := by
  decide

/-- C6: lookup is total with Option semantics: every pair of the
registry is returned by lookup on its key (so each present code has its
unique reason), any key outside the key set gives none, and 999 and 666
in particular give none. -/
theorem C6_lookup_option_semantics (c : Nat) (r : String) :
    ((c, r) ∈ get_status_codes → btGet c get_status_codes = some r) ∧
    (c ∉ btKeys get_status_codes → btGet c get_status_codes = none) ∧
    btGet 999 get_status_codes = none ∧
    btGet 666 get_status_codes = none := by
  refine ⟨fun hm => btGet_eq_some_of_mem _ (by decide) c r hm,
    fun hn => btGet_eq_none_of_not_mem _ c hn, by decide, by decide⟩

/-- C6 witness: the lookup theorem applied at code 200 with reason
"OK". -/
theorem C6_lookup_option_semantics_witness :
    btGet 200 get_status_codes = some "OK" ∧
    btGet 999 get_status_codes = none :=
  ⟨(C6_lookup_option_semantics 200 "OK").1 (by decide),
   (C6_lookup_option_semantics 200 "OK").2.2.1⟩

/-- C7: for every argument vector, the program runs the JSON renderer
exactly when the element at index 1 (the first argument after the
program name) is "--json" or "-j"; in every other case it runs the table
renderer, and the exit code is 0. -/
theorem C7_mode_selection (args : List String) :
    ((mainRun args).1 = Mode.json ↔
      ∃ a, args.get? 1 = some a ∧ (a = "--json" ∨ a = "-j")) ∧
    ((mainRun args).1 ≠ Mode.json → (mainRun args).1 = Mode.table) ∧
    (mainRun args).2 = 0 := by
  refine ⟨?_, ?_, rfl⟩
  · match args with
    | [] => simp [mainRun, selectMode]
    | [a0] => simp [mainRun, selectMode]
    | a0 :: a1 :: rest =>
      simp [mainRun, selectMode, List.getD]
      by_cases h1 : a1 = "--json" <;> by_cases h2 : a1 = "-j" <;>
        simp [h1, h2]
  · intro h
    cases hm : (mainRun args).1 with
    | table => rfl
    | json => exact absurd hm h

/-- C7 witness: the mode-selection theorem applied at the concrete
argument vectors with the json flag, with an unrecognized flag, and with
no flag. -/
theorem C7_mode_selection_witness :
    (mainRun ["httpstatus", "--json"]).1 = Mode.json ∧
    (mainRun ["httpstatus", "--bogus"]).1 = Mode.table ∧
    (mainRun ["httpstatus"]).2 = 0 :=
  ⟨(C7_mode_selection ["httpstatus", "--json"]).1.mpr
      ⟨"--json", rfl, Or.inl rfl⟩,
   (C7_mode_selection ["httpstatus", "--bogus"]).2.1
      (by
        intro hj
        have := (C7_mode_selection ["httpstatus", "--bogus"]).1.mp hj
        obtain ⟨a, ha, hor⟩ := this
        cases Option.some.inj ha
        rcases hor with h | h <;> simp at h),
   (C7_mode_selection ["httpstatus"]).2.2⟩

/-- C8: on a serialization error, print_json writes the diagnostic to
stderr, prints nothing to stdout, spawns nothing, and returns normally;
when jq cannot be spawned it prints the pretty form, or the compact form
when pretty-serialization fails; and it returns normally on every input. -/
theorem C8_print_json_error_handling (e json p : String)
    (prettySer : Except String String) (jq : Bool) :
    print_json (Except.error e) prettySer jq =
      { stdoutLines := [], stderrLines := ["Failed to serialize JSON: " ++ e],
        jqInput := none, returnedNormally := true } ∧
    (print_json (Except.ok json) (Except.ok p) false).stdoutLines = [p] ∧
    (print_json (Except.ok json) (Except.error e) false).stdoutLines = [json] ∧
    (∀ ser, (print_json ser prettySer jq).returnedNormally = true) := by
  refine ⟨rfl, rfl, rfl, fun ser => ?_⟩
  cases ser with
  | error e' => rfl
  | ok j => cases jq <;> rfl

/-- C9: print_table produces the header labels "Code" and "Description",
exactly one row per registry entry whose first cell is the decimal
string of the code, the codes are strictly ascending, and every code of
the registry has its decimal string somewhere in the rows. -/
theorem C9_table_mode :
    (print_table get_status_codes).header = ["Code", "Description"] ∧
    (print_table get_status_codes).rows.length = get_status_codes.length ∧
    (print_table get_status_codes).rows.map (fun r => r.headD "") =
      (btKeys get_status_codes).map (fun c => toString c) ∧
    List.Pairwise (fun a b => a < b) (btKeys get_status_codes) ∧
    (∀ c ∈ btKeys get_status_codes,
      toString c ∈ (print_table get_status_codes).rows.flatten) := by
  decide

set_option maxRecDepth 10000 in
/-- C10: the serialized JSON lists its keys in strictly ascending
numeric order of the codes: parsing the output gives the members in
serialized order, their key list is the decimal-string image of the
registry key sequence, and that sequence is strictly ascending; since
serializeMap is a function, the output for the fixed registry is one
deterministic string. -/
theorem C10_json_key_order :
    ∃ ms, parseJsonObject (serializeMap get_status_codes) = some ms ∧
      ms.map Prod.fst = (btKeys get_status_codes).map (fun c => toString c) ∧
      List.Pairwise (fun a b => a < b) (btKeys get_status_codes) := by
  refine ⟨get_status_codes.map (fun kv => (toString kv.1, kv.2)), by decide,
    by decide, by decide⟩

end HttpStatus
